import Mathlib

/-
  Shallow embedding of the CHIP-8 interpreter core of the repository
  rusty-chip.  The authoritative source is src/machine.rs (struct Chip8 and
  its impl blocks); src/cpu.rs is a dead earlier revision that is not part
  of the crate's module tree (main.rs declares only emulator, fonts and
  machine) and does not even parse, so it is ignored.  The module fonts.rs
  is referenced by machine.rs but is not present under src/, so the two
  constants it provides (FONT_MEMORY_START and FONTS) are modelled from the
  spec, which fixes them as an 80-byte table (16 glyphs times 5 bytes, the
  hexadecimal digit sprites) at offset 0x50.

  Machine integers are modelled as Nat with explicit wraparound (% 256 for
  u8, % 65536 for u16) at the operations where the source wraps.  Rust
  panics (array index out of bounds, u8/u16 arithmetic overflow in the
  default checked semantics, slice length mismatch in copy_from_slice) are
  modelled as Except.error values, one constructor per kind of trap site.
  Fields of the machine are modelled as functions from Nat, mirroring the
  fixed-size arrays of the source; register values are u8, so states whose
  register entries are below 256 are the ones corresponding to real
  machine states, and theorems add such bounds as hypotheses where the
  arithmetic depends on them.
-/

/-- Video width in pixels, from machine.rs: VIDEO_WIDTH = 64. -/
def VIDEO_WIDTH : Nat := 64

/-- Video height in pixels, from machine.rs: VIDEO_HEIGHT = 32. -/
def VIDEO_HEIGHT : Nat := 32

/-- Size of the framebuffer, from machine.rs: VIDEO_WIDTH * VIDEO_HEIGHT. -/
def VIDEO_BUFFER_SIZE : Nat := VIDEO_WIDTH * VIDEO_HEIGHT

/-- Start of the program region, from machine.rs: ROM_MEMORY_START = 0x200. -/
def ROM_MEMORY_START : Nat := 0x200

/-- Number of keypad keys, from machine.rs: NUM_KEYS = 16. -/
def NUM_KEYS : Nat := 16

/-- Size of the memory array, from machine.rs: memory: [u8; 4096]. -/
def MEMORY_SIZE : Nat := 4096

/-- Modelled from the spec: fonts.rs is not under src/.  The spec fixes the
font region at offset 0x50 (canonical layout). -/
def FONT_MEMORY_START : Nat := 0x50

/-- Modelled from the spec: fonts.rs is not under src/.  The spec fixes the
font table as 16 glyphs times 5 bytes each, the 0 to F hexadecimal digit
sprites (the canonical CHIP-8 font, 80 bytes in total).  The theorems below
depend only on its length (80) and on the start offset, not on the byte
values. -/
def FONTS : List Nat :=
  [0xF0, 0x90, 0x90, 0x90, 0xF0,
   0x20, 0x60, 0x20, 0x20, 0x70,
   0xF0, 0x10, 0xF0, 0x80, 0xF0,
   0xF0, 0x10, 0xF0, 0x10, 0xF0,
   0x90, 0x90, 0xF0, 0x10, 0x10,
   0xF0, 0x80, 0xF0, 0x10, 0xF0,
   0xF0, 0x80, 0xF0, 0x90, 0xF0,
   0xF0, 0x10, 0x20, 0x40, 0x40,
   0xF0, 0x90, 0xF0, 0x90, 0xF0,
   0xF0, 0x90, 0xF0, 0x10, 0xF0,
   0xF0, 0x90, 0xF0, 0x90, 0x90,
   0xE0, 0x90, 0xE0, 0x90, 0xE0,
   0xF0, 0x80, 0x80, 0x80, 0xF0,
   0xE0, 0x90, 0x90, 0x90, 0xE0,
   0xF0, 0x80, 0xF0, 0x80, 0xF0,
   0xF0, 0x80, 0xF0, 0x80, 0x80]

/-- One constructor per kind of Rust trap site in machine.rs.
The imageTooLarge constructor is produced by no definition in this file:
the source has no image-size check (its load fails through the
memory index trap); the constructor exists so the condition named by the
spec can be stated and compared against what the code does. -/
inductive EmuError where
  | unknownOpcode (op : Nat)
  | stackUnderflow
  | stackOverflow
  | memoryOutOfBounds
  | keypadOutOfBounds
  | pcUnderflow
  | sliceLengthMismatch
  | imageTooLarge
deriving DecidableEq

/-- The interpreter state, from machine.rs: struct Chip8.  Arrays become
functions from Nat; every index the source uses is guarded exactly where the
source would trap. -/
structure Chip8 where
  registers : Nat → Nat
  memory : Nat → Nat
  program_counter : Nat
  index : Nat
  stack : Nat → Nat
  stack_pointer : Nat
  delay_timer : Nat
  sound_timer : Nat
  keypad : Nat → Bool
  video : Nat → Bool
  redraw : Bool

namespace Chip8

/-- Pointwise array write, modelling an assignment to one array slot. -/
def upd {α : Type} (f : Nat → α) (i : Nat) (v : α) : Nat → α :=
  fun j => if j = i then v else f j

@[simp]
theorem upd_same {α : Type} (f : Nat → α) (i : Nat) (v : α) : upd f i v i = v := by
  simp [upd]

@[simp]
theorem upd_other {α : Type} (f : Nat → α) (i j : Nat) (v : α) (h : j ≠ i) :
    upd f i v j = f j := by
  simp [upd, h]

/-- Scan of the keypad from index i with r slots remaining, from machine.rs:
check_keypad loops i in 0..NUM_KEYS and returns the first pressed key. -/
def check_keypad_from (k : Nat → Bool) : Nat → Nat → Option Nat
  | _, 0 => none
  | i, r + 1 => if k i then some i else check_keypad_from k (i + 1) r

/-- From machine.rs: fn check_keypad, returning the lowest pressed key. -/
def check_keypad (k : Nat → Bool) : Option Nat :=
  check_keypad_from k 0 NUM_KEYS

/-- One inner iteration of the Dxyn sprite loop, from machine.rs lines
344 to 358: for sprite bit j of the current row, the plotted pixel has
row (y + i) % VIDEO_HEIGHT and column (x + j) % VIDEO_HEIGHT.  The column
wrap really is VIDEO_HEIGHT in the source (line 348), not VIDEO_WIDTH.
The video index pixel_y * VIDEO_WIDTH + pixel_x is at most
31 * 64 + 31 < 2048, inside the buffer, so no bound guard is needed.
The accumulator carries the collision flag and the machine. -/
def drawRowStep (row vx vyi : Nat) (j : Nat) (acc : Bool × Chip8) : Bool × Chip8 :=
  let s := acc.2
  if row &&& (0x80 >>> j) ≠ 0 then
    let pixel_y := vyi % VIDEO_HEIGHT
    let pixel_x := (vx + j) % VIDEO_HEIGHT
    let idx := pixel_y * VIDEO_WIDTH + pixel_x
    (acc.1 || s.video idx,
     { s with video := upd s.video idx (xor (s.video idx) true), redraw := true })
  else acc

/-- The Dxyn row loop, from machine.rs lines 341 to 359: row counter i with
r rows remaining; each row byte is read at memory[index + i], trapping if
that index leaves the 4096-byte array, then the 8 sprite bits are folded
through drawRowStep. -/
def drawRows (vx vy : Nat) : Nat → Nat → Bool × Chip8 → Except EmuError (Bool × Chip8)
  | _, 0, acc => Except.ok acc
  | i, r + 1, acc =>
    let s := acc.2
    if s.index + i < MEMORY_SIZE then
      drawRows vx vy (i + 1) r
        ((List.range 8).foldl
          (fun a j => drawRowStep (s.memory (s.index + i)) vx (vy + i) j a) acc)
    else Except.error EmuError.memoryOutOfBounds

/-- The whole 0xD arm of machine.rs fn execute: run the row loop from row 0
with n rows remaining starting from a clear collision flag, then set VF to 1
exactly when a collision was recorded. -/
def opDraw (s : Chip8) (op : Nat) : Except EmuError Chip8 :=
  match drawRows (s.registers ((op &&& 0x0F00) >>> 8)) (s.registers ((op &&& 0x00F0) >>> 4))
          0 (op &&& 0x000F) (false, s) with
  | Except.error e => Except.error e
  | Except.ok acc =>
    Except.ok { acc.2 with registers := upd acc.2.registers 0xF (if acc.1 then 1 else 0) }

/-- The Fx0A arm of machine.rs fn execute: if some key is pressed store the
lowest pressed key into Vx, otherwise rewind the program counter by 2 (a
u16 subtraction, trapping below 2). -/
def opWaitKey (s : Chip8) (x : Nat) : Except EmuError Chip8 :=
  match check_keypad s.keypad with
  | some key => Except.ok { s with registers := upd s.registers x key }
  | none =>
    if 2 ≤ s.program_counter then
      Except.ok { s with program_counter := s.program_counter - 2 }
    else Except.error EmuError.pcUnderflow

/-- Arm 0x0 of machine.rs fn execute: dispatch on the low nibble only —
0 clears the framebuffer (without touching redraw), E pops the stack
(trapping on the u8 decrement when the pointer is 0 and on the stack index
when the decremented pointer still leaves the 16-slot array), anything
else is opcode_not_found. -/
def arm0 (s : Chip8) (op : Nat) : Except EmuError Chip8 :=
  if op &&& 0x000F = 0x0 then
    Except.ok { s with video := fun _ => false }
  else if op &&& 0x000F = 0xE then
    if s.stack_pointer = 0 then Except.error EmuError.stackUnderflow
    else if s.stack_pointer - 1 < 16 then
      Except.ok { s with stack_pointer := s.stack_pointer - 1,
                         program_counter := s.stack (s.stack_pointer - 1) }
    else Except.error EmuError.stackOverflow
  else Except.error (EmuError.unknownOpcode op)

/-- Arm 0x1, jump: PC = nnn. -/
def arm1 (s : Chip8) (op : Nat) : Except EmuError Chip8 :=
  Except.ok { s with program_counter := op &&& 0x0FFF }

/-- Arm 0x2, call: store PC at stack[sp] (trapping when sp leaves the
16-slot array), increment sp, then PC = nnn. -/
def arm2 (s : Chip8) (op : Nat) : Except EmuError Chip8 :=
  if s.stack_pointer < 16 then
    Except.ok { s with stack := upd s.stack s.stack_pointer s.program_counter,
                       stack_pointer := s.stack_pointer + 1,
                       program_counter := op &&& 0x0FFF }
  else Except.error EmuError.stackOverflow

/-- Arm 0x3, skip when Vx = kk. -/
def arm3 (s : Chip8) (op : Nat) : Except EmuError Chip8 :=
  if s.registers ((op &&& 0x0F00) >>> 8) = op &&& 0x00FF then
    Except.ok { s with program_counter := s.program_counter + 2 }
  else Except.ok s

/-- Arm 0x4, skip when Vx differs from kk. -/
def arm4 (s : Chip8) (op : Nat) : Except EmuError Chip8 :=
  if s.registers ((op &&& 0x0F00) >>> 8) ≠ op &&& 0x00FF then
    Except.ok { s with program_counter := s.program_counter + 2 }
  else Except.ok s

/-- Arm 0x5, skip when Vx = Vy. -/
def arm5 (s : Chip8) (op : Nat) : Except EmuError Chip8 :=
  if s.registers ((op &&& 0x0F00) >>> 8) = s.registers ((op &&& 0x00F0) >>> 4) then
    Except.ok { s with program_counter := s.program_counter + 2 }
  else Except.ok s

/-- Arm 0x6, Vx = kk. -/
def arm6 (s : Chip8) (op : Nat) : Except EmuError Chip8 :=
  Except.ok { s with registers := upd s.registers ((op &&& 0x0F00) >>> 8) (op &&& 0x00FF) }

/-- Arm 0x7, Vx = Vx + kk with 8-bit wraparound (the source uses
wrapping_add) and no flag change. -/
def arm7 (s : Chip8) (op : Nat) : Except EmuError Chip8 :=
  Except.ok { s with registers := upd s.registers ((op &&& 0x0F00) >>> 8) ((s.registers ((op &&& 0x0F00) >>> 8) + (op &&& 0x00FF)) % 256) }

/-- Arm 0x8, the register ALU group, dispatching on the low nibble.  In the
4, 5 and 7 variants the source computes the wrapped result and flag from
the original registers, writes VF first, and only then stores the result
into registers[x], so with x = 0xF the result overwrites the flag.  In the
6 and E shift variants the source writes VF first and then shifts
registers[x] in place, reading the value it just wrote when x = 0xF. -/
def arm8 (s : Chip8) (op : Nat) : Except EmuError Chip8 :=
  if op &&& 0x000F = 0x0 then
    Except.ok { s with registers := upd s.registers ((op &&& 0x0F00) >>> 8) (s.registers ((op &&& 0x00F0) >>> 4)) }
  else if op &&& 0x000F = 0x1 then
    Except.ok { s with registers := upd s.registers ((op &&& 0x0F00) >>> 8) (s.registers ((op &&& 0x0F00) >>> 8) ||| s.registers ((op &&& 0x00F0) >>> 4)) }
  else if op &&& 0x000F = 0x2 then
    Except.ok { s with registers := upd s.registers ((op &&& 0x0F00) >>> 8) (s.registers ((op &&& 0x0F00) >>> 8) &&& s.registers ((op &&& 0x00F0) >>> 4)) }
  else if op &&& 0x000F = 0x3 then
    Except.ok { s with registers := upd s.registers ((op &&& 0x0F00) >>> 8) (s.registers ((op &&& 0x0F00) >>> 8) ^^^ s.registers ((op &&& 0x00F0) >>> 4)) }
  else if op &&& 0x000F = 0x4 then
    Except.ok { s with registers := upd (upd s.registers 0xF (if 256 ≤ s.registers ((op &&& 0x0F00) >>> 8) + s.registers ((op &&& 0x00F0) >>> 4) then 1 else 0)) ((op &&& 0x0F00) >>> 8) ((s.registers ((op &&& 0x0F00) >>> 8) + s.registers ((op &&& 0x00F0) >>> 4)) % 256) }
  else if op &&& 0x000F = 0x5 then
    Except.ok { s with registers := upd (upd s.registers 0xF (if s.registers ((op &&& 0x0F00) >>> 8) < s.registers ((op &&& 0x00F0) >>> 4) then 0 else 1)) ((op &&& 0x0F00) >>> 8) ((s.registers ((op &&& 0x0F00) >>> 8) + 256 - s.registers ((op &&& 0x00F0) >>> 4)) % 256) }
  else if op &&& 0x000F = 0x6 then
    Except.ok { s with registers := upd (upd s.registers 0xF (s.registers ((op &&& 0x0F00) >>> 8) &&& 0x1)) ((op &&& 0x0F00) >>> 8) (upd s.registers 0xF (s.registers ((op &&& 0x0F00) >>> 8) &&& 0x1) ((op &&& 0x0F00) >>> 8) >>> 1) }
  else if op &&& 0x000F = 0x7 then
    Except.ok { s with registers := upd (upd s.registers 0xF (if s.registers ((op &&& 0x00F0) >>> 4) < s.registers ((op &&& 0x0F00) >>> 8) then 0 else 1)) ((op &&& 0x0F00) >>> 8) ((s.registers ((op &&& 0x00F0) >>> 4) + 256 - s.registers ((op &&& 0x0F00) >>> 8)) % 256) }
  else if op &&& 0x000F = 0xE then
    Except.ok { s with registers := upd (upd s.registers 0xF ((s.registers ((op &&& 0x0F00) >>> 8) >>> 7) &&& 1)) ((op &&& 0x0F00) >>> 8) ((upd s.registers 0xF ((s.registers ((op &&& 0x0F00) >>> 8) >>> 7) &&& 1) ((op &&& 0x0F00) >>> 8) <<< 1) % 256) }
  else Except.error (EmuError.unknownOpcode op)

/-- Arm 0x9, skip when Vx differs from Vy. -/
def arm9 (s : Chip8) (op : Nat) : Except EmuError Chip8 :=
  if s.registers ((op &&& 0x0F00) >>> 8) ≠ s.registers ((op &&& 0x00F0) >>> 4) then
    Except.ok { s with program_counter := s.program_counter + 2 }
  else Except.ok s

/-- Arm 0xA, I = nnn. -/
def armA (s : Chip8) (op : Nat) : Except EmuError Chip8 :=
  Except.ok { s with index := op &&& 0x0FFF }

/-- Arm 0xB, PC = nnn + V0. -/
def armB (s : Chip8) (op : Nat) : Except EmuError Chip8 :=
  Except.ok { s with program_counter := (op &&& 0x0FFF) + s.registers 0 }

/-- Arm 0xC, Vx = random byte AND kk; rb is the byte drawn from
rand::thread_rng() in the source. -/
def armC (s : Chip8) (op rb : Nat) : Except EmuError Chip8 :=
  Except.ok { s with registers := upd s.registers ((op &&& 0x0F00) >>> 8) ((rb % 256) &&& (op &&& 0x00FF)) }

/-- Arm 0xE, the key-skip group: both variants index the 16-entry keypad
with the full 8-bit value of Vx, trapping when it leaves the array. -/
def armE (s : Chip8) (op : Nat) : Except EmuError Chip8 :=
  if op &&& 0x00FF = 0x9E then
    if s.registers ((op &&& 0x0F00) >>> 8) < NUM_KEYS then
      if s.keypad (s.registers ((op &&& 0x0F00) >>> 8)) then
        Except.ok { s with program_counter := s.program_counter + 2 }
      else Except.ok s
    else Except.error EmuError.keypadOutOfBounds
  else if op &&& 0x00FF = 0xA1 then
    if s.registers ((op &&& 0x0F00) >>> 8) < NUM_KEYS then
      if s.keypad (s.registers ((op &&& 0x0F00) >>> 8)) then Except.ok s
      else Except.ok { s with program_counter := s.program_counter + 2 }
    else Except.error EmuError.keypadOutOfBounds
  else Except.error (EmuError.unknownOpcode op)

/-- Arm 0xF, dispatching on the low byte: timer reads and writes, the
blocking key wait, index arithmetic (Fx1E wraps as u16 — the source uses
wrapping_add), font addressing, BCD, and the register dump and load (both
trapping when the inclusive memory range leaves the array). -/
def armF (s : Chip8) (op : Nat) : Except EmuError Chip8 :=
  if op &&& 0x00FF = 0x07 then
    Except.ok { s with registers := upd s.registers ((op &&& 0x0F00) >>> 8) s.delay_timer }
  else if op &&& 0x00FF = 0x0A then
    opWaitKey s ((op &&& 0x0F00) >>> 8)
  else if op &&& 0x00FF = 0x15 then
    Except.ok { s with delay_timer := s.registers ((op &&& 0x0F00) >>> 8) }
  else if op &&& 0x00FF = 0x18 then
    Except.ok { s with sound_timer := s.registers ((op &&& 0x0F00) >>> 8) }
  else if op &&& 0x00FF = 0x1E then
    Except.ok { s with index := (s.index + s.registers ((op &&& 0x0F00) >>> 8)) % 65536 }
  else if op &&& 0x00FF = 0x29 then
    Except.ok { s with index := FONT_MEMORY_START + 5 * s.registers ((op &&& 0x0F00) >>> 8) }
  else if op &&& 0x00FF = 0x33 then
    if s.index + 2 < MEMORY_SIZE then
      Except.ok { s with memory := upd (upd (upd s.memory (s.index + 2) (s.registers ((op &&& 0x0F00) >>> 8) % 10)) (s.index + 1) (s.registers ((op &&& 0x0F00) >>> 8) / 10 % 10)) s.index (s.registers ((op &&& 0x0F00) >>> 8) / 100 % 10) }
    else Except.error EmuError.memoryOutOfBounds
  else if op &&& 0x00FF = 0x55 then
    if s.index + ((op &&& 0x0F00) >>> 8) < MEMORY_SIZE then
      Except.ok { s with memory := fun a => if s.index ≤ a ∧ a ≤ s.index + ((op &&& 0x0F00) >>> 8) then s.registers (a - s.index) else s.memory a }
    else Except.error EmuError.memoryOutOfBounds
  else if op &&& 0x00FF = 0x65 then
    if s.index + ((op &&& 0x0F00) >>> 8) < MEMORY_SIZE then
      Except.ok { s with registers := fun r => if r ≤ (op &&& 0x0F00) >>> 8 then s.memory (s.index + r) else s.registers r }
    else Except.error EmuError.memoryOutOfBounds
  else Except.error (EmuError.unknownOpcode op)

/-- From machine.rs: fn execute(&mut self, opcode: u16).  The outer Rust
match on the top nibble (the source binds it as `first`) becomes a chain of
conditionals dispatching to one arm function per top nibble; the final
else is the catch-all opcode_not_found arm at the end of the source match.
rb models the byte drawn from rand::thread_rng() in the 0xC arm. -/
def execute (s : Chip8) (op rb : Nat) : Except EmuError Chip8 :=
  if (op &&& 0xF000) >>> 12 = 0x0 then arm0 s op
  else if (op &&& 0xF000) >>> 12 = 0x1 then arm1 s op
  else if (op &&& 0xF000) >>> 12 = 0x2 then arm2 s op
  else if (op &&& 0xF000) >>> 12 = 0x3 then arm3 s op
  else if (op &&& 0xF000) >>> 12 = 0x4 then arm4 s op
  else if (op &&& 0xF000) >>> 12 = 0x5 then arm5 s op
  else if (op &&& 0xF000) >>> 12 = 0x6 then arm6 s op
  else if (op &&& 0xF000) >>> 12 = 0x7 then arm7 s op
  else if (op &&& 0xF000) >>> 12 = 0x8 then arm8 s op
  else if (op &&& 0xF000) >>> 12 = 0x9 then arm9 s op
  else if (op &&& 0xF000) >>> 12 = 0xA then armA s op
  else if (op &&& 0xF000) >>> 12 = 0xB then armB s op
  else if (op &&& 0xF000) >>> 12 = 0xC then armC s op rb
  else if (op &&& 0xF000) >>> 12 = 0xD then opDraw s op
  else if (op &&& 0xF000) >>> 12 = 0xE then armE s op
  else if (op &&& 0xF000) >>> 12 = 0xF then armF s op
  else Except.error (EmuError.unknownOpcode op)

/-- From machine.rs: fn cycle (the single-step entry point): fetch two bytes
big-endian at the program counter, trapping where memory[pc] or
memory[pc + 1] would leave the array, advance the program counter by 2, then
dispatch.  This is the operation the spec calls step. -/
def cycle (s : Chip8) (rb : Nat) : Except EmuError Chip8 :=
  if s.program_counter + 1 < MEMORY_SIZE then
    execute { s with program_counter := s.program_counter + 2 }
      ((s.memory s.program_counter) <<< 8 ||| s.memory (s.program_counter + 1)) rb
  else Except.error EmuError.memoryOutOfBounds

/-- From machine.rs: fn decrement_timers, each timer decremented when
positive, saturating at 0.  This is the operation the spec calls
tick_timers. -/
def decrement_timers (s : Chip8) : Chip8 :=
  let s1 := if 0 < s.delay_timer then { s with delay_timer := s.delay_timer - 1 } else s
  if 0 < s1.sound_timer then { s1 with sound_timer := s1.sound_timer - 1 } else s1

/-- The copy loop of machine.rs fn load, lines 74 to 77: byte i of the
buffer is written at memory[ROM_MEMORY_START + i], trapping at the first
index that leaves the 4096-byte array.  The file reading that produces the
buffer is host-side input handled before this loop. -/
def loadLoop (mem : Nat → Nat) (i : Nat) : List Nat → Except EmuError (Nat → Nat)
  | [] => Except.ok mem
  | b :: rest =>
    if ROM_MEMORY_START + i < MEMORY_SIZE then
      loadLoop (upd mem (ROM_MEMORY_START + i) b) (i + 1) rest
    else Except.error EmuError.memoryOutOfBounds

/-- From machine.rs: fn load, with the in-memory byte sequence read from the
file as input. -/
def load (s : Chip8) (buffer : List Nat) : Except EmuError Chip8 :=
  match loadLoop s.memory 0 buffer with
  | Except.ok m => Except.ok { s with memory := m }
  | Except.error e => Except.error e

/-- Rust copy_from_slice on an inclusive memory range lo ..= hi: slicing
traps when the range leaves the array, and copy_from_slice traps when the
destination length hi + 1 - lo differs from the source length. -/
def copy_from_slice (mem : Nat → Nat) (lo hi : Nat) (src : List Nat) :
    Except EmuError (Nat → Nat) :=
  if hi + 1 ≤ MEMORY_SIZE then
    if hi + 1 - lo = src.length then
      Except.ok (fun a => if lo ≤ a ∧ a ≤ hi then src.getD (a - lo) 0 else mem a)
    else Except.error EmuError.sliceLengthMismatch
  else Except.error EmuError.memoryOutOfBounds

/-- The record literal built at the start of machine.rs fn new, before the
font copy: all arrays zeroed, program counter at ROM_MEMORY_START, stack
pointer 0, redraw true. -/
def initState : Chip8 :=
  { registers := fun _ => 0
    memory := fun _ => 0
    program_counter := ROM_MEMORY_START
    index := 0
    stack := fun _ => 0
    stack_pointer := 0
    delay_timer := 0
    sound_timer := 0
    keypad := fun _ => false
    video := fun _ => false
    redraw := true }

/-- From machine.rs: fn new, line 60: the font table is copied with
memory[FONT_MEMORY_START ..= FONT_MEMORY_START + FONTS.len()]
.copy_from_slice(&FONTS), an inclusive range. -/
def new : Except EmuError Chip8 :=
  match copy_from_slice initState.memory FONT_MEMORY_START
          (FONT_MEMORY_START + FONTS.length) FONTS with
  | Except.ok m => Except.ok { initState with memory := m }
  | Except.error e => Except.error e

/-- Decides whether a 16-bit opcode falls through to an opcode_not_found
arm of the dispatch in machine.rs fn execute: top nibble 0 with low nibble
outside 0 and E, top nibble 8 with low nibble outside 0 to 7 and E, top
nibble E with low byte outside 9E and A1, top nibble F with low byte
outside the nine recognized values.  Note the 0 arm inspects only the low
nibble, so for example 0x0010 is NOT unmatched. -/
def unmatchedOp (op : Nat) : Bool :=
  if (op &&& 0xF000) >>> 12 = 0x0 then
    if op &&& 0x000F = 0x0 then false
    else if op &&& 0x000F = 0xE then false
    else true
  else if (op &&& 0xF000) >>> 12 = 0x1 then false
  else if (op &&& 0xF000) >>> 12 = 0x2 then false
  else if (op &&& 0xF000) >>> 12 = 0x3 then false
  else if (op &&& 0xF000) >>> 12 = 0x4 then false
  else if (op &&& 0xF000) >>> 12 = 0x5 then false
  else if (op &&& 0xF000) >>> 12 = 0x6 then false
  else if (op &&& 0xF000) >>> 12 = 0x7 then false
  else if (op &&& 0xF000) >>> 12 = 0x8 then
    if op &&& 0x000F = 0x0 then false
    else if op &&& 0x000F = 0x1 then false
    else if op &&& 0x000F = 0x2 then false
    else if op &&& 0x000F = 0x3 then false
    else if op &&& 0x000F = 0x4 then false
    else if op &&& 0x000F = 0x5 then false
    else if op &&& 0x000F = 0x6 then false
    else if op &&& 0x000F = 0x7 then false
    else if op &&& 0x000F = 0xE then false
    else true
  else if (op &&& 0xF000) >>> 12 = 0x9 then false
  else if (op &&& 0xF000) >>> 12 = 0xA then false
  else if (op &&& 0xF000) >>> 12 = 0xB then false
  else if (op &&& 0xF000) >>> 12 = 0xC then false
  else if (op &&& 0xF000) >>> 12 = 0xD then false
  else if (op &&& 0xF000) >>> 12 = 0xE then
    if op &&& 0x00FF = 0x9E then false
    else if op &&& 0x00FF = 0xA1 then false
    else true
  else if (op &&& 0xF000) >>> 12 = 0xF then
    if op &&& 0x00FF = 0x07 then false
    else if op &&& 0x00FF = 0x0A then false
    else if op &&& 0x00FF = 0x15 then false
    else if op &&& 0x00FF = 0x18 then false
    else if op &&& 0x00FF = 0x1E then false
    else if op &&& 0x00FF = 0x29 then false
    else if op &&& 0x00FF = 0x33 then false
    else if op &&& 0x00FF = 0x55 then false
    else if op &&& 0x00FF = 0x65 then false
    else true
  else true

/-- Writing a list of bytes at consecutive addresses from base on, the
intended effect of the load loop when every write stays in bounds. -/
def writeBytes (mem : Nat → Nat) (base : Nat) : List Nat → (Nat → Nat)
  | [] => mem
  | b :: rest => writeBytes (upd mem base b) (base + 1) rest

/-- Zeroed register file with V0 = 63, for the sprite wrap counterexample. -/
def stateDraw : Chip8 :=
  { initState with registers := upd (fun _ => 0) 0 63,
                   index := 0x300,
                   memory := upd (fun _ => 0) 0x300 0xC0 }

/-- A state whose redraw flag is off, for the clear-screen counterexample. -/
def stateRedrawOff : Chip8 :=
  { initState with redraw := false }

/-- A state with VF = 200 and V0 = 100, for the ALU flag counterexample. -/
def stateAlu : Chip8 :=
  { initState with registers := upd (upd (fun _ => 0) 0xF 200) 0 100 }

/-- A state with V0 = 200 and V1 = 100, inputs for the amended ALU claim. -/
def stateAlu2 : Chip8 :=
  { initState with registers := upd (upd (fun _ => 0) 0 200) 1 100 }

/-- A state with a full call stack, stack pointer 16. -/
def stateSpFull : Chip8 :=
  { initState with stack_pointer := 16 }

/-- A state with V0 = 5, for the Fx15 timer counterexample. -/
def stateV5 : Chip8 :=
  { initState with registers := upd (fun _ => 0) 0 5 }

/-- A state whose program memory holds opcode F30A at the entry point and
whose keypad is fully released, for the blocking keypress claim. -/
def stateWait : Chip8 :=
  { initState with memory := upd (upd (fun _ => 0) 0x200 0xF3) 0x201 0x0A }

/-- The same F30A program state with key 7 pressed. -/
def stateWaitKey : Chip8 :=
  { stateWait with keypad := fun i => i = 7 }

/-- A state with V0 = 200, an out-of-range keypad index for Ex9E. -/
def stateKeyHigh : Chip8 :=
  { initState with registers := upd (fun _ => 0) 0 200 }

/-- Register file after an 8xy4 add as the spec words it: Vx holds the
8-bit wraparound sum and VF is exactly the 8-bit overflow flag. -/
def specAdd (regs : Nat → Nat) (x y : Nat) : Nat → Nat :=
  upd (upd regs 0xF (if 256 ≤ regs x + regs y then 1 else 0)) x ((regs x + regs y) % 256)

/-- Register file after an 8xy5 subtract as the spec words it: Vx holds
the 8-bit wraparound difference Vx - Vy and VF is 1 exactly when no borrow
occurred (Vx at least Vy). -/
def specSub (regs : Nat → Nat) (x y : Nat) : Nat → Nat :=
  upd (upd regs 0xF (if regs y ≤ regs x then 1 else 0)) x ((regs x + 256 - regs y) % 256)

/-- Register file after an 8xy7 reverse subtract as the spec words it: Vx
holds the 8-bit wraparound difference Vy - Vx and VF is 1 exactly when no
borrow occurred (Vy at least Vx). -/
def specSubn (regs : Nat → Nat) (x y : Nat) : Nat → Nat :=
  upd (upd regs 0xF (if regs x ≤ regs y then 1 else 0)) x ((regs y + 256 - regs x) % 256)

/- ------------------------------------------------------------------ -/
/- Helper lemmas -/
/- ------------------------------------------------------------------ -/

theorem drawRowStep_fields (row vx vyi j : Nat) (acc : Bool × Chip8) :
    (drawRowStep row vx vyi j acc).2.delay_timer = acc.2.delay_timer ∧
    (drawRowStep row vx vyi j acc).2.sound_timer = acc.2.sound_timer ∧
    (drawRowStep row vx vyi j acc).2.stack_pointer = acc.2.stack_pointer ∧
    (drawRowStep row vx vyi j acc).2.registers = acc.2.registers := by
  unfold drawRowStep
  split <;> simp

theorem foldl_drawRowStep_fields (row vx vyi : Nat) (l : List Nat) (acc : Bool × Chip8) :
    (l.foldl (fun a j => drawRowStep row vx vyi j a) acc).2.delay_timer = acc.2.delay_timer ∧
    (l.foldl (fun a j => drawRowStep row vx vyi j a) acc).2.sound_timer = acc.2.sound_timer ∧
    (l.foldl (fun a j => drawRowStep row vx vyi j a) acc).2.stack_pointer = acc.2.stack_pointer ∧
    (l.foldl (fun a j => drawRowStep row vx vyi j a) acc).2.registers = acc.2.registers := by
  induction l generalizing acc with
  | nil => simp
  | cons j t ih =>
    simp only [List.foldl_cons]
    obtain ⟨d1, s1, p1, r1⟩ := drawRowStep_fields row vx vyi j acc
    obtain ⟨d2, s2, p2, r2⟩ := ih (drawRowStep row vx vyi j acc)
    exact ⟨d2.trans d1, s2.trans s1, p2.trans p1, r2.trans r1⟩

theorem drawRows_fields (vx vy : Nat) :
    ∀ (r i : Nat) (acc out : Bool × Chip8), drawRows vx vy i r acc = Except.ok out →
      out.2.delay_timer = acc.2.delay_timer ∧
      out.2.sound_timer = acc.2.sound_timer ∧
      out.2.stack_pointer = acc.2.stack_pointer := by
  intro r
  induction r with
  | zero =>
    intro i acc out h
    simp only [drawRows] at h
    cases h
    exact ⟨rfl, rfl, rfl⟩
  | succ n ih =>
    intro i acc out h
    simp only [drawRows] at h
    split at h
    · have hmid := foldl_drawRowStep_fields (acc.2.memory (acc.2.index + i)) vx (vy + i)
        (List.range 8) acc
      obtain ⟨d1, s1, p1, _⟩ := hmid
      obtain ⟨d2, s2, p2⟩ := ih (i + 1) _ out h
      exact ⟨d2.trans d1, s2.trans s1, p2.trans p1⟩
    · cases h

theorem opDraw_fields (s : Chip8) (op : Nat) (t : Chip8) (h : opDraw s op = Except.ok t) :
    t.delay_timer = s.delay_timer ∧ t.sound_timer = s.sound_timer ∧
    t.stack_pointer = s.stack_pointer := by
  unfold opDraw at h
  split at h
  · cases h
  · rename_i acc heq
    obtain ⟨hd, hs, hp⟩ := drawRows_fields _ _ _ _ _ _ heq
    cases h
    exact ⟨hd, hs, hp⟩

theorem opWaitKey_fields (s : Chip8) (x : Nat) (t : Chip8) (h : opWaitKey s x = Except.ok t) :
    t.delay_timer = s.delay_timer ∧ t.sound_timer = s.sound_timer ∧
    t.stack_pointer = s.stack_pointer := by
  unfold opWaitKey at h
  split at h
  · cases h
    exact ⟨rfl, rfl, rfl⟩
  · split at h
    · cases h
      exact ⟨rfl, rfl, rfl⟩
    · cases h

theorem arm0_fields (s : Chip8) (op : Nat) (t : Chip8) (h : arm0 s op = Except.ok t) :
    t.delay_timer = s.delay_timer ∧ t.sound_timer = s.sound_timer ∧
    (t.stack_pointer = s.stack_pointer ∨ t.stack_pointer ≤ 16) := by
  unfold arm0 at h
  repeat' split at h
  all_goals first
    | exact Except.noConfusion h
    | (simp only [Except.ok.injEq] at h
       subst h
       refine ⟨rfl, rfl, ?_⟩
       first
         | exact Or.inl rfl
         | (right; simp; omega)
         | (right; omega))

theorem arm1_fields (s : Chip8) (op : Nat) (t : Chip8) (h : arm1 s op = Except.ok t) :
    t.delay_timer = s.delay_timer ∧ t.sound_timer = s.sound_timer ∧
    (t.stack_pointer = s.stack_pointer ∨ t.stack_pointer ≤ 16) := by
  unfold arm1 at h
  simp only [Except.ok.injEq] at h
  subst h
  exact ⟨rfl, rfl, Or.inl rfl⟩

theorem arm2_fields (s : Chip8) (op : Nat) (t : Chip8) (h : arm2 s op = Except.ok t) :
    t.delay_timer = s.delay_timer ∧ t.sound_timer = s.sound_timer ∧
    (t.stack_pointer = s.stack_pointer ∨ t.stack_pointer ≤ 16) := by
  unfold arm2 at h
  repeat' split at h
  all_goals first
    | exact Except.noConfusion h
    | (simp only [Except.ok.injEq] at h
       subst h
       refine ⟨rfl, rfl, ?_⟩
       first
         | exact Or.inl rfl
         | (right; simp; omega)
         | (right; omega))

theorem arm3_fields (s : Chip8) (op : Nat) (t : Chip8) (h : arm3 s op = Except.ok t) :
    t.delay_timer = s.delay_timer ∧ t.sound_timer = s.sound_timer ∧
    (t.stack_pointer = s.stack_pointer ∨ t.stack_pointer ≤ 16) := by
  unfold arm3 at h
  repeat' split at h
  all_goals
    (simp only [Except.ok.injEq] at h
     subst h
     exact ⟨rfl, rfl, Or.inl rfl⟩)

theorem arm4_fields (s : Chip8) (op : Nat) (t : Chip8) (h : arm4 s op = Except.ok t) :
    t.delay_timer = s.delay_timer ∧ t.sound_timer = s.sound_timer ∧
    (t.stack_pointer = s.stack_pointer ∨ t.stack_pointer ≤ 16) := by
  unfold arm4 at h
  repeat' split at h
  all_goals
    (simp only [Except.ok.injEq] at h
     subst h
     exact ⟨rfl, rfl, Or.inl rfl⟩)

theorem arm5_fields (s : Chip8) (op : Nat) (t : Chip8) (h : arm5 s op = Except.ok t) :
    t.delay_timer = s.delay_timer ∧ t.sound_timer = s.sound_timer ∧
    (t.stack_pointer = s.stack_pointer ∨ t.stack_pointer ≤ 16) := by
  unfold arm5 at h
  repeat' split at h
  all_goals
    (simp only [Except.ok.injEq] at h
     subst h
     exact ⟨rfl, rfl, Or.inl rfl⟩)

theorem arm6_fields (s : Chip8) (op : Nat) (t : Chip8) (h : arm6 s op = Except.ok t) :
    t.delay_timer = s.delay_timer ∧ t.sound_timer = s.sound_timer ∧
    (t.stack_pointer = s.stack_pointer ∨ t.stack_pointer ≤ 16) := by
  unfold arm6 at h
  simp only [Except.ok.injEq] at h
  subst h
  exact ⟨rfl, rfl, Or.inl rfl⟩

theorem arm7_fields (s : Chip8) (op : Nat) (t : Chip8) (h : arm7 s op = Except.ok t) :
    t.delay_timer = s.delay_timer ∧ t.sound_timer = s.sound_timer ∧
    (t.stack_pointer = s.stack_pointer ∨ t.stack_pointer ≤ 16) := by
  unfold arm7 at h
  simp only [Except.ok.injEq] at h
  subst h
  exact ⟨rfl, rfl, Or.inl rfl⟩

theorem arm8_fields (s : Chip8) (op : Nat) (t : Chip8) (h : arm8 s op = Except.ok t) :
    t.delay_timer = s.delay_timer ∧ t.sound_timer = s.sound_timer ∧
    (t.stack_pointer = s.stack_pointer ∨ t.stack_pointer ≤ 16) := by
  unfold arm8 at h
  repeat' split at h
  all_goals first
    | exact Except.noConfusion h
    | (simp only [Except.ok.injEq] at h
       subst h
       exact ⟨rfl, rfl, Or.inl rfl⟩)

theorem arm9_fields (s : Chip8) (op : Nat) (t : Chip8) (h : arm9 s op = Except.ok t) :
    t.delay_timer = s.delay_timer ∧ t.sound_timer = s.sound_timer ∧
    (t.stack_pointer = s.stack_pointer ∨ t.stack_pointer ≤ 16) := by
  unfold arm9 at h
  repeat' split at h
  all_goals
    (simp only [Except.ok.injEq] at h
     subst h
     exact ⟨rfl, rfl, Or.inl rfl⟩)

theorem armA_fields (s : Chip8) (op : Nat) (t : Chip8) (h : armA s op = Except.ok t) :
    t.delay_timer = s.delay_timer ∧ t.sound_timer = s.sound_timer ∧
    (t.stack_pointer = s.stack_pointer ∨ t.stack_pointer ≤ 16) := by
  unfold armA at h
  simp only [Except.ok.injEq] at h
  subst h
  exact ⟨rfl, rfl, Or.inl rfl⟩

theorem armB_fields (s : Chip8) (op : Nat) (t : Chip8) (h : armB s op = Except.ok t) :
    t.delay_timer = s.delay_timer ∧ t.sound_timer = s.sound_timer ∧
    (t.stack_pointer = s.stack_pointer ∨ t.stack_pointer ≤ 16) := by
  unfold armB at h
  simp only [Except.ok.injEq] at h
  subst h
  exact ⟨rfl, rfl, Or.inl rfl⟩

theorem armC_fields (s : Chip8) (op rb : Nat) (t : Chip8) (h : armC s op rb = Except.ok t) :
    t.delay_timer = s.delay_timer ∧ t.sound_timer = s.sound_timer ∧
    (t.stack_pointer = s.stack_pointer ∨ t.stack_pointer ≤ 16) := by
  unfold armC at h
  simp only [Except.ok.injEq] at h
  subst h
  exact ⟨rfl, rfl, Or.inl rfl⟩

theorem armE_fields (s : Chip8) (op : Nat) (t : Chip8) (h : armE s op = Except.ok t) :
    t.delay_timer = s.delay_timer ∧ t.sound_timer = s.sound_timer ∧
    (t.stack_pointer = s.stack_pointer ∨ t.stack_pointer ≤ 16) := by
  unfold armE at h
  repeat' split at h
  all_goals first
    | exact Except.noConfusion h
    | (simp only [Except.ok.injEq] at h
       subst h
       exact ⟨rfl, rfl, Or.inl rfl⟩)

theorem armF_fields (s : Chip8) (op : Nat) (t : Chip8) (h : armF s op = Except.ok t) :
    (t.delay_timer = s.delay_timer ∨ (op &&& 0x00FF = 0x15 ∧ t.delay_timer = s.registers ((op &&& 0x0F00) >>> 8))) ∧
    (t.sound_timer = s.sound_timer ∨ (op &&& 0x00FF = 0x18 ∧ t.sound_timer = s.registers ((op &&& 0x0F00) >>> 8))) ∧
    t.stack_pointer = s.stack_pointer := by
  unfold armF at h
  by_cases c07 : op &&& 0x00FF = 0x07
  · rw [if_pos c07] at h
    simp only [Except.ok.injEq] at h
    subst h
    exact ⟨Or.inl rfl, Or.inl rfl, rfl⟩
  rw [if_neg c07] at h
  by_cases c0A : op &&& 0x00FF = 0x0A
  · rw [if_pos c0A] at h
    obtain ⟨hd2, hs2, hp2⟩ := opWaitKey_fields _ _ _ h
    exact ⟨Or.inl hd2, Or.inl hs2, hp2⟩
  rw [if_neg c0A] at h
  by_cases c15 : op &&& 0x00FF = 0x15
  · rw [if_pos c15] at h
    simp only [Except.ok.injEq] at h
    subst h
    exact ⟨Or.inr ⟨c15, rfl⟩, Or.inl rfl, rfl⟩
  rw [if_neg c15] at h
  by_cases c18 : op &&& 0x00FF = 0x18
  · rw [if_pos c18] at h
    simp only [Except.ok.injEq] at h
    subst h
    exact ⟨Or.inl rfl, Or.inr ⟨c18, rfl⟩, rfl⟩
  rw [if_neg c18] at h
  by_cases c1E : op &&& 0x00FF = 0x1E
  · rw [if_pos c1E] at h
    simp only [Except.ok.injEq] at h
    subst h
    exact ⟨Or.inl rfl, Or.inl rfl, rfl⟩
  rw [if_neg c1E] at h
  by_cases c29 : op &&& 0x00FF = 0x29
  · rw [if_pos c29] at h
    simp only [Except.ok.injEq] at h
    subst h
    exact ⟨Or.inl rfl, Or.inl rfl, rfl⟩
  rw [if_neg c29] at h
  by_cases c33 : op &&& 0x00FF = 0x33
  · rw [if_pos c33] at h
    by_cases cm : s.index + 2 < MEMORY_SIZE
    · rw [if_pos cm] at h
      simp only [Except.ok.injEq] at h
      subst h
      exact ⟨Or.inl rfl, Or.inl rfl, rfl⟩
    · rw [if_neg cm] at h
      exact Except.noConfusion h
  rw [if_neg c33] at h
  by_cases c55 : op &&& 0x00FF = 0x55
  · rw [if_pos c55] at h
    by_cases cm : s.index + ((op &&& 0x0F00) >>> 8) < MEMORY_SIZE
    · rw [if_pos cm] at h
      simp only [Except.ok.injEq] at h
      subst h
      exact ⟨Or.inl rfl, Or.inl rfl, rfl⟩
    · rw [if_neg cm] at h
      exact Except.noConfusion h
  rw [if_neg c55] at h
  by_cases c65 : op &&& 0x00FF = 0x65
  · rw [if_pos c65] at h
    by_cases cm : s.index + ((op &&& 0x0F00) >>> 8) < MEMORY_SIZE
    · rw [if_pos cm] at h
      simp only [Except.ok.injEq] at h
      subst h
      exact ⟨Or.inl rfl, Or.inl rfl, rfl⟩
    · rw [if_neg cm] at h
      exact Except.noConfusion h
  rw [if_neg c65] at h
  exact Except.noConfusion h

theorem first_nibble_le (op : Nat) : (op &&& 0xF000) >>> 12 ≤ 15 := by
  have h1 : op &&& 0xF000 ≤ 0xF000 := Nat.and_le_right
  have h2 : (op &&& 0xF000) >>> 12 ≤ 0xF000 >>> 12 := by
    simp only [Nat.shiftRight_eq_div_pow]
    exact Nat.div_le_div_right h1
  simpa using h2

theorem arm0_unknown (s : Chip8) (op : Nat)
    (c1 : ¬(op &&& 0x000F = 0x0)) (c2 : ¬(op &&& 0x000F = 0xE)) :
    arm0 s op = Except.error (EmuError.unknownOpcode op) := by
  unfold arm0
  rw [if_neg c1, if_neg c2]

theorem arm8_unknown (s : Chip8) (op : Nat)
    (c1 : ¬(op &&& 0x000F = 0x0)) (c2 : ¬(op &&& 0x000F = 0x1))
    (c3 : ¬(op &&& 0x000F = 0x2)) (c4 : ¬(op &&& 0x000F = 0x3))
    (c5 : ¬(op &&& 0x000F = 0x4)) (c6 : ¬(op &&& 0x000F = 0x5))
    (c7 : ¬(op &&& 0x000F = 0x6)) (c8 : ¬(op &&& 0x000F = 0x7))
    (c9 : ¬(op &&& 0x000F = 0xE)) :
    arm8 s op = Except.error (EmuError.unknownOpcode op) := by
  unfold arm8
  rw [if_neg c1, if_neg c2, if_neg c3, if_neg c4, if_neg c5, if_neg c6, if_neg c7, if_neg c8,
    if_neg c9]

theorem armE_unknown (s : Chip8) (op : Nat)
    (c1 : ¬(op &&& 0x00FF = 0x9E)) (c2 : ¬(op &&& 0x00FF = 0xA1)) :
    armE s op = Except.error (EmuError.unknownOpcode op) := by
  unfold armE
  rw [if_neg c1, if_neg c2]

theorem armF_unknown (s : Chip8) (op : Nat)
    (c1 : ¬(op &&& 0x00FF = 0x07)) (c2 : ¬(op &&& 0x00FF = 0x0A))
    (c3 : ¬(op &&& 0x00FF = 0x15)) (c4 : ¬(op &&& 0x00FF = 0x18))
    (c5 : ¬(op &&& 0x00FF = 0x1E)) (c6 : ¬(op &&& 0x00FF = 0x29))
    (c7 : ¬(op &&& 0x00FF = 0x33)) (c8 : ¬(op &&& 0x00FF = 0x55))
    (c9 : ¬(op &&& 0x00FF = 0x65)) :
    armF s op = Except.error (EmuError.unknownOpcode op) := by
  unfold armF
  rw [if_neg c1, if_neg c2, if_neg c3, if_neg c4, if_neg c5, if_neg c6, if_neg c7, if_neg c8,
    if_neg c9]

theorem unmatchedOp_first0 (op : Nat) (hk : (op &&& 0xF000) >>> 12 = 0x0)
    (hu : unmatchedOp op = true) :
    ¬(op &&& 0x000F = 0x0) ∧ ¬(op &&& 0x000F = 0xE) := by
  unfold unmatchedOp at hu
  rw [hk] at hu
  norm_num at hu
  constructor <;> intro c <;> simp [c] at hu

theorem unmatchedOp_first8 (op : Nat) (hk : (op &&& 0xF000) >>> 12 = 0x8)
    (hu : unmatchedOp op = true) :
    ¬(op &&& 0x000F = 0x0) ∧ ¬(op &&& 0x000F = 0x1) ∧ ¬(op &&& 0x000F = 0x2) ∧
    ¬(op &&& 0x000F = 0x3) ∧ ¬(op &&& 0x000F = 0x4) ∧ ¬(op &&& 0x000F = 0x5) ∧
    ¬(op &&& 0x000F = 0x6) ∧ ¬(op &&& 0x000F = 0x7) ∧ ¬(op &&& 0x000F = 0xE) := by
  unfold unmatchedOp at hu
  rw [hk] at hu
  norm_num at hu
  refine ⟨?_, ?_, ?_, ?_, ?_, ?_, ?_, ?_, ?_⟩ <;> intro c <;> simp [c] at hu

theorem unmatchedOp_firstE (op : Nat) (hk : (op &&& 0xF000) >>> 12 = 0xE)
    (hu : unmatchedOp op = true) :
    ¬(op &&& 0x00FF = 0x9E) ∧ ¬(op &&& 0x00FF = 0xA1) := by
  unfold unmatchedOp at hu
  rw [hk] at hu
  norm_num at hu
  constructor <;> intro c <;> simp [c] at hu

theorem unmatchedOp_firstF (op : Nat) (hk : (op &&& 0xF000) >>> 12 = 0xF)
    (hu : unmatchedOp op = true) :
    ¬(op &&& 0x00FF = 0x07) ∧ ¬(op &&& 0x00FF = 0x0A) ∧ ¬(op &&& 0x00FF = 0x15) ∧
    ¬(op &&& 0x00FF = 0x18) ∧ ¬(op &&& 0x00FF = 0x1E) ∧ ¬(op &&& 0x00FF = 0x29) ∧
    ¬(op &&& 0x00FF = 0x33) ∧ ¬(op &&& 0x00FF = 0x55) ∧ ¬(op &&& 0x00FF = 0x65) := by
  unfold unmatchedOp at hu
  rw [hk] at hu
  norm_num at hu
  refine ⟨?_, ?_, ?_, ?_, ?_, ?_, ?_, ?_, ?_⟩ <;> intro c <;> simp [c] at hu

theorem check_keypad_from_none (k : Nat → Bool) :
    ∀ (r i : Nat), (∀ t, i ≤ t → t < i + r → k t = false) →
      check_keypad_from k i r = none := by
  intro r
  induction r with
  | zero => intro i _; rfl
  | succ n ih =>
    intro i h
    have hi : k i = false := h i (Nat.le_refl i) (by omega)
    simp only [check_keypad_from, hi, Bool.false_eq_true, if_false]
    exact ih (i + 1) (fun t ht1 ht2 => h t (by omega) (by omega))

theorem check_keypad_from_some (k : Nat → Bool) :
    ∀ (r i m : Nat), check_keypad_from k i r = some m →
      k m = true ∧ i ≤ m ∧ m < i + r ∧ ∀ t, i ≤ t → t < m → k t = false := by
  intro r
  induction r with
  | zero => intro i m h; cases h
  | succ n ih =>
    intro i m h
    simp only [check_keypad_from] at h
    by_cases hk : k i
    · simp only [hk, if_true] at h
      cases h
      exact ⟨hk, Nat.le_refl _, by omega, fun t ht1 ht2 => by omega⟩
    · simp only [hk, if_false] at h
      obtain ⟨h1, h2, h3, h4⟩ := ih (i + 1) m h
      refine ⟨h1, by omega, by omega, fun t ht1 ht2 => ?_⟩
      rcases Nat.eq_or_lt_of_le ht1 with rfl | ht
      · exact Bool.eq_false_iff.mpr (fun hc => hk hc)
      · exact h4 t ht ht2

theorem check_keypad_from_isSome (k : Nat → Bool) :
    ∀ (r i j : Nat), i ≤ j → j < i + r → k j = true →
      ∃ m, check_keypad_from k i r = some m := by
  intro r
  induction r with
  | zero => intro i j h1 h2; omega
  | succ n ih =>
    intro i j h1 h2 hk
    simp only [check_keypad_from]
    by_cases hi : k i
    · exact ⟨i, by simp [hi]⟩
    · have hij : i ≠ j := fun hc => hi (hc ▸ hk)
      obtain ⟨m, hm⟩ := ih (i + 1) j (by omega) (by omega) hk
      exact ⟨m, by simp [hi, hm]⟩

theorem loadLoop_ok (buffer : List Nat) :
    ∀ (i : Nat) (mem : Nat → Nat), i + buffer.length ≤ 3584 →
      loadLoop mem i buffer = Except.ok (writeBytes mem (ROM_MEMORY_START + i) buffer) := by
  induction buffer with
  | nil => intro i mem _; rfl
  | cons b rest ih =>
    intro i mem h
    simp only [List.length_cons] at h
    have hlt : ROM_MEMORY_START + i < MEMORY_SIZE := by
      simp only [ROM_MEMORY_START, MEMORY_SIZE]; omega
    simp only [loadLoop, hlt, if_true, writeBytes]
    have := ih (i + 1) (upd mem (ROM_MEMORY_START + i) b) (by omega)
    rw [this]
    have harith : ROM_MEMORY_START + (i + 1) = ROM_MEMORY_START + i + 1 := by omega
    rw [harith]

theorem loadLoop_overflow (buffer : List Nat) :
    ∀ (i : Nat) (mem : Nat → Nat), i ≤ 3584 → 3584 < i + buffer.length →
      loadLoop mem i buffer = Except.error EmuError.memoryOutOfBounds := by
  induction buffer with
  | nil => intro i mem h1 h2; simp at h2; omega
  | cons b rest ih =>
    intro i mem h1 h2
    simp only [List.length_cons] at h2
    by_cases hi : i = 3584
    · subst hi
      have : ¬ ROM_MEMORY_START + 3584 < MEMORY_SIZE := by
        simp [ROM_MEMORY_START, MEMORY_SIZE]
      simp only [loadLoop, this, if_false]
    · have hlt : ROM_MEMORY_START + i < MEMORY_SIZE := by
        simp only [ROM_MEMORY_START, MEMORY_SIZE]; omega
      simp only [loadLoop, hlt, if_true]
      exact ih (i + 1) _ (by omega) (by omega)

theorem load_short (s : Chip8) (buffer : List Nat) (h : buffer.length ≤ 3584) :
    load s buffer = Except.ok { s with memory := writeBytes s.memory ROM_MEMORY_START buffer } := by
  unfold load
  rw [loadLoop_ok buffer 0 s.memory (by omega)]
  simp

theorem load_long (s : Chip8) (buffer : List Nat) (h : 3584 < buffer.length) :
    load s buffer = Except.error EmuError.memoryOutOfBounds := by
  unfold load
  rw [loadLoop_overflow buffer 0 s.memory (by omega) (by omega)]

theorem opWaitKey_none (s : Chip8) (x : Nat) (hck : check_keypad s.keypad = none)
    (hpc : 2 ≤ s.program_counter) :
    opWaitKey s x = Except.ok { s with program_counter := s.program_counter - 2 } := by
  unfold opWaitKey
  rw [hck]
  simp only [if_pos hpc]

theorem opWaitKey_some (s : Chip8) (x m : Nat) (hck : check_keypad s.keypad = some m) :
    opWaitKey s x = Except.ok { s with registers := upd s.registers x m } := by
  unfold opWaitKey
  rw [hck]

theorem execute_fx0a (s : Chip8) (op rb : Nat)
    (hf : (op &&& 0xF000) >>> 12 = 0xF) (hid : op &&& 0x00FF = 0x0A) :
    execute s op rb = opWaitKey s ((op &&& 0x0F00) >>> 8) := by
  simp only [execute, armF, hf, hid, Nat.reduceEqDiff, reduceIte]

/- ------------------------------------------------------------------ -/
/- Claim theorems -/
/- ------------------------------------------------------------------ -/

/-- C1.  The claim says new() succeeds and establishes the documented
initial state.  In the source the font copy uses the inclusive range
memory[0x50 ..= 0x50 + FONTS.len()], whose 81 destination bytes cannot
receive the 80-byte font table: copy_from_slice traps, so construction
never completes.  This theorem evaluates the model of new() and shows the
trap. -/
theorem C1_new_font_copy_traps :
    new = Except.error EmuError.sliceLengthMismatch := by
  rfl

/-- C2 evaluation at the failing input.  The claim (and the spec) say each
plotted pixel column is (Vx + j) mod WIDTH with WIDTH = 64; the source
wraps the column with VIDEO_HEIGHT = 32 (machine.rs line 348).  With
V0 = 63, V1 = 0, I = 0x300, memory[0x300] = 0xC0 (two leftmost sprite
bits), opcode D011 draws the anchor pixel at column 63 % 32 = 31 instead of
column 63, and its second column at (63 + 1) % 32 = 0; no collision, so
VF = 0. -/
theorem C2_draw_wraps_column_mod_height :
    (execute stateDraw 0xD011 0).toOption.map
      (fun t => (t.video 31, t.video 0, t.video 63, t.registers 15)) =
      some (true, true, false, 0) := by
  decide

/-- C3 counterexample.  The claim says executing 00E0 from any machine
state leaves the redraw flag true; the source arm only clears the
framebuffer and never touches redraw, so from a state with redraw off the
flag stays off. -/
theorem C3_cex_clear_leaves_redraw_off :
    (execute stateRedrawOff 0x00E0 0).toOption.map (fun t => t.redraw) = some false ∧
    (execute stateRedrawOff 0x00E0 0).toOption.map (fun t => t.redraw) ≠ some true := by
  decide

/-- C3 amended.  After executing opcode 00E0 from any machine state, every
framebuffer cell is off and the redraw flag is unchanged (the 00E0 arm
does not set it). -/
theorem C3_clear_screen (s : Chip8) (rb : Nat) :
    execute s 0x00E0 rb = Except.ok { s with video := fun _ => false } := by
  rfl

/-- C4 counterexample.  The claim covers x = 0xF; with VF = 200, V0 = 100,
opcode 8F04 the addition overflows, so the claim requires VF = 1, but the
source writes the carry flag first and then stores the wrapped sum into
registers[x] = registers[0xF], leaving VF = (200 + 100) % 256 = 44. -/
theorem C4_cex_flag_overwritten_when_x_is_F :
    (execute stateAlu 0x8F04 0).toOption.map (fun t => t.registers 15) = some 44 ∧
    (execute stateAlu 0x8F04 0).toOption.map (fun t => t.registers 15) ≠ some 1 := by
  decide

/-- C4 amended.  For register pairs with x distinct from 0xF (y may be any
register, 0xF included) and 8-bit register contents, 8xy4 stores the 8-bit
wraparound sum in Vx with VF exactly the overflow flag, and 8xy5 / 8xy7
store the 8-bit wraparound difference with VF exactly the no-borrow flag
(Vx at least Vy, or Vy at least Vx, respectively).  When x = 0xF the
result value overwrites the flag, as the counterexample shows. -/
theorem C4_alu_add_sub_flags (s : Chip8) (op rb : Nat)
    (hf : (op &&& 0xF000) >>> 12 = 0x8)
    (hx : (op &&& 0x0F00) >>> 8 ≠ 0xF)
    (hvx : s.registers ((op &&& 0x0F00) >>> 8) < 256)
    (hvy : s.registers ((op &&& 0x00F0) >>> 4) < 256) :
    (op &&& 0x000F = 0x4 →
      execute s op rb = Except.ok { s with registers := specAdd s.registers ((op &&& 0x0F00) >>> 8) ((op &&& 0x00F0) >>> 4) } ∧
      specAdd s.registers ((op &&& 0x0F00) >>> 8) ((op &&& 0x00F0) >>> 4) ((op &&& 0x0F00) >>> 8) = (s.registers ((op &&& 0x0F00) >>> 8) + s.registers ((op &&& 0x00F0) >>> 4)) % 256 ∧
      specAdd s.registers ((op &&& 0x0F00) >>> 8) ((op &&& 0x00F0) >>> 4) 0xF = (if 256 ≤ s.registers ((op &&& 0x0F00) >>> 8) + s.registers ((op &&& 0x00F0) >>> 4) then 1 else 0)) ∧
    (op &&& 0x000F = 0x5 →
      execute s op rb = Except.ok { s with registers := specSub s.registers ((op &&& 0x0F00) >>> 8) ((op &&& 0x00F0) >>> 4) } ∧
      specSub s.registers ((op &&& 0x0F00) >>> 8) ((op &&& 0x00F0) >>> 4) ((op &&& 0x0F00) >>> 8) = (s.registers ((op &&& 0x0F00) >>> 8) + 256 - s.registers ((op &&& 0x00F0) >>> 4)) % 256 ∧
      specSub s.registers ((op &&& 0x0F00) >>> 8) ((op &&& 0x00F0) >>> 4) 0xF = (if s.registers ((op &&& 0x00F0) >>> 4) ≤ s.registers ((op &&& 0x0F00) >>> 8) then 1 else 0)) ∧
    (op &&& 0x000F = 0x7 →
      execute s op rb = Except.ok { s with registers := specSubn s.registers ((op &&& 0x0F00) >>> 8) ((op &&& 0x00F0) >>> 4) } ∧
      specSubn s.registers ((op &&& 0x0F00) >>> 8) ((op &&& 0x00F0) >>> 4) ((op &&& 0x0F00) >>> 8) = (s.registers ((op &&& 0x00F0) >>> 4) + 256 - s.registers ((op &&& 0x0F00) >>> 8)) % 256 ∧
      specSubn s.registers ((op &&& 0x0F00) >>> 8) ((op &&& 0x00F0) >>> 4) 0xF = (if s.registers ((op &&& 0x0F00) >>> 8) ≤ s.registers ((op &&& 0x00F0) >>> 4) then 1 else 0)) := by
  refine ⟨fun h4 => ⟨?_, ?_, ?_⟩, fun h5 => ⟨?_, ?_, ?_⟩, fun h7 => ⟨?_, ?_, ?_⟩⟩
  · simp only [execute, arm8, hf, h4, specAdd]
    norm_num
  · simp [specAdd]
  · simp [specAdd, upd, Ne.symm hx]
  · simp only [execute, arm8, hf, h5, specSub]
    norm_num
    have hflip : (if s.registers ((op &&& 0x0F00) >>> 8) < s.registers ((op &&& 0x00F0) >>> 4) then (0 : Nat) else 1) = (if s.registers ((op &&& 0x00F0) >>> 4) ≤ s.registers ((op &&& 0x0F00) >>> 8) then 1 else 0) := by
      rcases Nat.lt_or_ge (s.registers ((op &&& 0x0F00) >>> 8)) (s.registers ((op &&& 0x00F0) >>> 4)) with h | h
      · rw [if_pos h, if_neg (by omega)]
      · rw [if_neg (by omega), if_pos (by omega)]
    rw [hflip]
  · simp [specSub]
  · simp [specSub, upd, Ne.symm hx]
  · simp only [execute, arm8, hf, h7, specSubn]
    norm_num
    have hflip : (if s.registers ((op &&& 0x00F0) >>> 4) < s.registers ((op &&& 0x0F00) >>> 8) then (0 : Nat) else 1) = (if s.registers ((op &&& 0x0F00) >>> 8) ≤ s.registers ((op &&& 0x00F0) >>> 4) then 1 else 0) := by
      rcases Nat.lt_or_ge (s.registers ((op &&& 0x00F0) >>> 4)) (s.registers ((op &&& 0x0F00) >>> 8)) with h | h
      · rw [if_pos h, if_neg (by omega)]
      · rw [if_neg (by omega), if_pos (by omega)]
    rw [hflip]
  · simp [specSubn]
  · simp [specSubn, upd, Ne.symm hx]

/-- C4 witness: the amended theorem applied to V0 = 200, V1 = 100 with
opcodes 8014, 8015 and 8017. -/
theorem C4_alu_add_sub_flags_witness :
    execute stateAlu2 0x8014 0 = Except.ok { stateAlu2 with registers := specAdd stateAlu2.registers 0 1 } ∧
    execute stateAlu2 0x8015 0 = Except.ok { stateAlu2 with registers := specSub stateAlu2.registers 0 1 } ∧
    execute stateAlu2 0x8017 0 = Except.ok { stateAlu2 with registers := specSubn stateAlu2.registers 0 1 } := by
  refine ⟨?_, ?_, ?_⟩
  · exact ((C4_alu_add_sub_flags stateAlu2 0x8014 0 (by decide) (by decide) (by decide)
      (by decide)).1 (by decide)).1
  · exact ((C4_alu_add_sub_flags stateAlu2 0x8015 0 (by decide) (by decide) (by decide)
      (by decide)).2.1 (by decide)).1
  · exact ((C4_alu_add_sub_flags stateAlu2 0x8017 0 (by decide) (by decide) (by decide)
      (by decide)).2.2 (by decide)).1

/-- C7 counterexample.  The claim says an over-long image fails with the
ImageTooLarge condition.  The source load has no size check at all: with
3585 bytes the copy loop runs until the write at offset 3584 falls outside
the 4096-byte memory array and the failure is that out-of-bounds trap, a
different condition. -/
theorem C7_cex_no_image_size_check :
    load initState (List.replicate 3585 0) = Except.error EmuError.memoryOutOfBounds ∧
    EmuError.memoryOutOfBounds ≠ EmuError.imageTooLarge := by
  constructor
  · exact load_long initState (List.replicate 3585 0) (by rw [List.length_replicate]; omega)
  · decide

/-- C7 amended.  A load of at most 4096 - 0x200 = 3584 bytes succeeds and
copies the bytes into memory starting at 0x200; a longer image fails
through the out-of-bounds write of the byte at offset 3584 (there is no
dedicated ImageTooLarge check), so nothing is ever written outside the
4096-byte array, and the image is neither truncated nor wrapped. -/
theorem C7_load_bounds (s : Chip8) (buffer : List Nat) :
    (buffer.length ≤ 3584 →
      load s buffer = Except.ok { s with memory := writeBytes s.memory ROM_MEMORY_START buffer }) ∧
    (3584 < buffer.length →
      load s buffer = Except.error EmuError.memoryOutOfBounds) := by
  exact ⟨fun h => load_short s buffer h, fun h => load_long s buffer h⟩

/-- C7 witness: the amended theorem applied to an image of exactly 3584
bytes (which loads) and one of 3585 bytes (which fails with the
out-of-bounds trap). -/
theorem C7_load_bounds_witness :
    load initState (List.replicate 3584 7) = Except.ok { initState with memory := writeBytes initState.memory ROM_MEMORY_START (List.replicate 3584 7) } ∧
    load initState (List.replicate 3585 7) = Except.error EmuError.memoryOutOfBounds := by
  constructor
  · exact (C7_load_bounds initState (List.replicate 3584 7)).1 (by rw [List.length_replicate])
  · exact (C7_load_bounds initState (List.replicate 3585 7)).2 (by rw [List.length_replicate]; omega)

/-- C10.  The Ex9E and ExA1 arms index the 16-entry keypad array with the
full 8-bit value of Vx (machine.rs lines 380 and 388): with Vx below 16 the
step is well defined and either skips or leaves the program counter, and
with Vx at least 16 the access leaves the array and the out-of-bounds trap
is reached. -/
theorem C10_key_skip_index_bounds (s : Chip8) (op rb : Nat)
    (hf : (op &&& 0xF000) >>> 12 = 0xE)
    (hid : op &&& 0x00FF = 0x9E ∨ op &&& 0x00FF = 0xA1) :
    (16 ≤ s.registers ((op &&& 0x0F00) >>> 8) →
      execute s op rb = Except.error EmuError.keypadOutOfBounds) ∧
    (s.registers ((op &&& 0x0F00) >>> 8) < 16 →
      execute s op rb = Except.ok s ∨
      execute s op rb = Except.ok { s with program_counter := s.program_counter + 2 }) := by
  constructor
  · intro hge
    rcases hid with hid | hid
    · simp only [execute, armE, hf, hid]
      norm_num [NUM_KEYS]
      omega
    · simp only [execute, armE, hf, hid]
      norm_num [NUM_KEYS]
      intro h
      omega
  · intro hlt
    rcases hid with hid | hid
    · simp only [execute, armE, hf, hid]
      norm_num [NUM_KEYS, hlt]
      by_cases hk : s.keypad (s.registers ((op &&& 0x0F00) >>> 8))
      · simp [hk]
      · simp [hk]
    · simp only [execute, armE, hf, hid]
      norm_num [NUM_KEYS, hlt]
      by_cases hk : s.keypad (s.registers ((op &&& 0x0F00) >>> 8))
      · simp [hk]
      · simp [hk]

/-- C10 witness: with V0 = 200 opcode E09E reaches the keypad trap, and
from the zeroed state with V0 = 0 opcode E0A1 skips (key 0 released). -/
theorem C10_key_skip_index_bounds_witness :
    execute stateKeyHigh 0xE09E 0 = Except.error EmuError.keypadOutOfBounds ∧
    (execute initState 0xE0A1 0 = Except.ok initState ∨
     execute initState 0xE0A1 0 = Except.ok { initState with program_counter := initState.program_counter + 2 }) := by
  constructor
  · exact (C10_key_skip_index_bounds stateKeyHigh 0xE09E 0 (by decide)
      (Or.inl (by decide))).1 (by decide)
  · exact (C10_key_skip_index_bounds initState 0xE0A1 0 (by decide)
      (Or.inr (by decide))).2 (by decide)

/-- C5 counterexample.  The claim says any 0-prefixed opcode other than
00E0 and 00EE fails with UnknownOpcode.  The 0 arm of the dispatch tests
only the low nibble, so opcode 0x0010 executes the clear-screen behavior
instead of failing. -/
theorem C5_cex_zero_prefix_runs_cls :
    execute initState 0x0010 0 = Except.ok { initState with video := fun _ => false } ∧
    execute initState 0x0010 0 ≠ Except.error (EmuError.unknownOpcode 0x0010) := by
  refine ⟨rfl, fun hc => ?_⟩
  rw [show execute initState 0x0010 0 = Except.ok { initState with video := fun _ => false }
    from rfl] at hc
  exact Except.noConfusion hc

/-- C5 amended.  Every opcode that reaches an opcode_not_found arm of the
dispatch (as characterized by unmatchedOp: top nibble 0 with low nibble
outside 0 and E, top nibble 8 with low nibble outside 0 to 7 and E, top
nibble E with low byte outside 9E and A1, top nibble F with an unrecognized
low byte) fails with UnknownOpcode carrying the raw 16-bit opcode, from
every machine state; it is never executed as a no-op or as another
instruction.  However, because the 0 arm dispatches on the low nibble
alone, 0-prefixed opcodes with low nibble 0 or E execute the 00E0 or 00EE
behavior respectively, as the counterexample shows. -/
theorem C5_unmatched_fails (s : Chip8) (op rb : Nat) (hu : unmatchedOp op = true) :
    execute s op rb = Except.error (EmuError.unknownOpcode op) := by
  obtain ⟨k, hk, hkeq⟩ : ∃ k, k ≤ 15 ∧ (op &&& 0xF000) >>> 12 = k :=
    ⟨(op &&& 0xF000) >>> 12, first_nibble_le op, rfl⟩
  interval_cases k
  · obtain ⟨c1, c2⟩ := unmatchedOp_first0 op hkeq hu
    simp only [execute, hkeq, Nat.reduceEqDiff, reduceIte]
    exact arm0_unknown s op c1 c2
  · exact absurd hu (by simp [unmatchedOp, hkeq])
  · exact absurd hu (by simp [unmatchedOp, hkeq])
  · exact absurd hu (by simp [unmatchedOp, hkeq])
  · exact absurd hu (by simp [unmatchedOp, hkeq])
  · exact absurd hu (by simp [unmatchedOp, hkeq])
  · exact absurd hu (by simp [unmatchedOp, hkeq])
  · exact absurd hu (by simp [unmatchedOp, hkeq])
  · obtain ⟨c1, c2, c3, c4, c5, c6, c7, c8, c9⟩ := unmatchedOp_first8 op hkeq hu
    simp only [execute, hkeq, Nat.reduceEqDiff, reduceIte]
    exact arm8_unknown s op c1 c2 c3 c4 c5 c6 c7 c8 c9
  · exact absurd hu (by simp [unmatchedOp, hkeq])
  · exact absurd hu (by simp [unmatchedOp, hkeq])
  · exact absurd hu (by simp [unmatchedOp, hkeq])
  · exact absurd hu (by simp [unmatchedOp, hkeq])
  · exact absurd hu (by simp [unmatchedOp, hkeq])
  · obtain ⟨c1, c2⟩ := unmatchedOp_firstE op hkeq hu
    simp only [execute, hkeq, Nat.reduceEqDiff, reduceIte]
    exact armE_unknown s op c1 c2
  · obtain ⟨c1, c2, c3, c4, c5, c6, c7, c8, c9⟩ := unmatchedOp_firstF op hkeq hu
    simp only [execute, hkeq, Nat.reduceEqDiff, reduceIte]
    exact armF_unknown s op c1 c2 c3 c4 c5 c6 c7 c8 c9

/-- C5 witness: the amended theorem applied to opcode 0x800F, which the
claim itself names as an undefined pattern. -/
theorem C5_unmatched_fails_witness :
    execute initState 0x800F 0 = Except.error (EmuError.unknownOpcode 0x800F) :=
  C5_unmatched_fails initState 0x800F 0 (by decide)

/-- C6.  From any state, popping with 00EE when the stack pointer is 0
fails with the underflow trap (the u8 decrement), calling with 2nnn when
the stack pointer is 16 fails with the overflow trap (the stack[16] index),
and every successful instruction keeps a stack pointer that was at most 16
at most 16 — the pointer is never clamped or wrapped to continue. -/
theorem C6_stack_pointer_bounds (s : Chip8) (op rb : Nat) :
    ((op &&& 0xF000) >>> 12 = 0x0 → op &&& 0x000F = 0xE → s.stack_pointer = 0 →
      execute s op rb = Except.error EmuError.stackUnderflow) ∧
    ((op &&& 0xF000) >>> 12 = 0x2 → s.stack_pointer = 16 →
      execute s op rb = Except.error EmuError.stackOverflow) ∧
    (∀ t, execute s op rb = Except.ok t → s.stack_pointer ≤ 16 → t.stack_pointer ≤ 16) := by
  refine ⟨fun h1 h2 h3 => ?_, fun h1 h2 => ?_, fun t h hsp => ?_⟩
  · simp only [execute, arm0, h1, h2, h3]
    norm_num
  · simp only [execute, arm2, h1, h2]
    norm_num
  · obtain ⟨k, hk, hkeq⟩ : ∃ k, k ≤ 15 ∧ (op &&& 0xF000) >>> 12 = k :=
      ⟨(op &&& 0xF000) >>> 12, first_nibble_le op, rfl⟩
    interval_cases k <;> simp only [execute, hkeq, Nat.reduceEqDiff, reduceIte] at h
    · obtain ⟨hd2, hs2, hp2⟩ := arm0_fields _ _ _ h
      rcases hp2 with he | hle
      · exact he ▸ hsp
      · exact hle
    · obtain ⟨hd2, hs2, hp2⟩ := arm1_fields _ _ _ h
      rcases hp2 with he | hle
      · exact he ▸ hsp
      · exact hle
    · obtain ⟨hd2, hs2, hp2⟩ := arm2_fields _ _ _ h
      rcases hp2 with he | hle
      · exact he ▸ hsp
      · exact hle
    · obtain ⟨hd2, hs2, hp2⟩ := arm3_fields _ _ _ h
      rcases hp2 with he | hle
      · exact he ▸ hsp
      · exact hle
    · obtain ⟨hd2, hs2, hp2⟩ := arm4_fields _ _ _ h
      rcases hp2 with he | hle
      · exact he ▸ hsp
      · exact hle
    · obtain ⟨hd2, hs2, hp2⟩ := arm5_fields _ _ _ h
      rcases hp2 with he | hle
      · exact he ▸ hsp
      · exact hle
    · obtain ⟨hd2, hs2, hp2⟩ := arm6_fields _ _ _ h
      rcases hp2 with he | hle
      · exact he ▸ hsp
      · exact hle
    · obtain ⟨hd2, hs2, hp2⟩ := arm7_fields _ _ _ h
      rcases hp2 with he | hle
      · exact he ▸ hsp
      · exact hle
    · obtain ⟨hd2, hs2, hp2⟩ := arm8_fields _ _ _ h
      rcases hp2 with he | hle
      · exact he ▸ hsp
      · exact hle
    · obtain ⟨hd2, hs2, hp2⟩ := arm9_fields _ _ _ h
      rcases hp2 with he | hle
      · exact he ▸ hsp
      · exact hle
    · obtain ⟨hd2, hs2, hp2⟩ := armA_fields _ _ _ h
      rcases hp2 with he | hle
      · exact he ▸ hsp
      · exact hle
    · obtain ⟨hd2, hs2, hp2⟩ := armB_fields _ _ _ h
      rcases hp2 with he | hle
      · exact he ▸ hsp
      · exact hle
    · obtain ⟨hd2, hs2, hp2⟩ := armC_fields _ _ _ _ h
      rcases hp2 with he | hle
      · exact he ▸ hsp
      · exact hle
    · obtain ⟨hd2, hs2, hp2⟩ := opDraw_fields _ _ _ h
      rw [hp2]
      exact hsp
    · obtain ⟨hd2, hs2, hp2⟩ := armE_fields _ _ _ h
      rcases hp2 with he | hle
      · exact he ▸ hsp
      · exact hle
    · obtain ⟨hd2, hs2, hp2⟩ := armF_fields _ _ _ h
      rw [hp2]
      exact hsp

/-- C6 witness: the theorem applied at stack pointer 0 with opcode 00EE, at
stack pointer 16 with opcode 2ABC, and to the successful clear screen from
the initial state. -/
theorem C6_stack_pointer_bounds_witness :
    execute initState 0x00EE 0 = Except.error EmuError.stackUnderflow ∧
    execute stateSpFull 0x2ABC 0 = Except.error EmuError.stackOverflow ∧
    ({ initState with video := fun _ => false } : Chip8).stack_pointer ≤ 16 := by
  refine ⟨?_, ?_, ?_⟩
  · exact (C6_stack_pointer_bounds initState 0x00EE 0).1 (by decide) (by decide) rfl
  · exact (C6_stack_pointer_bounds stateSpFull 0x2ABC 0).2.1 (by decide) rfl
  · exact (C6_stack_pointer_bounds initState 0x00E0 0).2.2 _ rfl (by decide)

/-- C8 counterexample.  The claim says a successful step never changes the
timers; opcode F015 with V0 = 5 sets the delay timer from 0 to 5. -/
theorem C8_cex_Fx15_sets_delay_timer :
    stateV5.delay_timer = 0 ∧
    (execute stateV5 0xF015 0).toOption.map (fun t => t.delay_timer) = some 5 := by
  decide

/-- C8 amended.  A successful execute leaves the delay timer unchanged
unless the opcode matches Fx15 (which sets it to Vx), and leaves the sound
timer unchanged unless the opcode matches Fx18 (which sets it to Vx); no
opcode decrements a timer — decrementing happens only in
decrement_timers. -/
theorem C8_step_timers (s : Chip8) (op rb : Nat) (t : Chip8)
    (h : execute s op rb = Except.ok t) :
    (t.delay_timer = s.delay_timer ∨
      ((op &&& 0xF000) >>> 12 = 0xF ∧ op &&& 0x00FF = 0x15 ∧
        t.delay_timer = s.registers ((op &&& 0x0F00) >>> 8))) ∧
    (t.sound_timer = s.sound_timer ∨
      ((op &&& 0xF000) >>> 12 = 0xF ∧ op &&& 0x00FF = 0x18 ∧
        t.sound_timer = s.registers ((op &&& 0x0F00) >>> 8))) := by
  obtain ⟨k, hk, hkeq⟩ : ∃ k, k ≤ 15 ∧ (op &&& 0xF000) >>> 12 = k :=
    ⟨(op &&& 0xF000) >>> 12, first_nibble_le op, rfl⟩
  interval_cases k <;> simp only [execute, hkeq, Nat.reduceEqDiff, reduceIte] at h
  · obtain ⟨hd2, hs2, hp2⟩ := arm0_fields _ _ _ h
    exact ⟨Or.inl hd2, Or.inl hs2⟩
  · obtain ⟨hd2, hs2, hp2⟩ := arm1_fields _ _ _ h
    exact ⟨Or.inl hd2, Or.inl hs2⟩
  · obtain ⟨hd2, hs2, hp2⟩ := arm2_fields _ _ _ h
    exact ⟨Or.inl hd2, Or.inl hs2⟩
  · obtain ⟨hd2, hs2, hp2⟩ := arm3_fields _ _ _ h
    exact ⟨Or.inl hd2, Or.inl hs2⟩
  · obtain ⟨hd2, hs2, hp2⟩ := arm4_fields _ _ _ h
    exact ⟨Or.inl hd2, Or.inl hs2⟩
  · obtain ⟨hd2, hs2, hp2⟩ := arm5_fields _ _ _ h
    exact ⟨Or.inl hd2, Or.inl hs2⟩
  · obtain ⟨hd2, hs2, hp2⟩ := arm6_fields _ _ _ h
    exact ⟨Or.inl hd2, Or.inl hs2⟩
  · obtain ⟨hd2, hs2, hp2⟩ := arm7_fields _ _ _ h
    exact ⟨Or.inl hd2, Or.inl hs2⟩
  · obtain ⟨hd2, hs2, hp2⟩ := arm8_fields _ _ _ h
    exact ⟨Or.inl hd2, Or.inl hs2⟩
  · obtain ⟨hd2, hs2, hp2⟩ := arm9_fields _ _ _ h
    exact ⟨Or.inl hd2, Or.inl hs2⟩
  · obtain ⟨hd2, hs2, hp2⟩ := armA_fields _ _ _ h
    exact ⟨Or.inl hd2, Or.inl hs2⟩
  · obtain ⟨hd2, hs2, hp2⟩ := armB_fields _ _ _ h
    exact ⟨Or.inl hd2, Or.inl hs2⟩
  · obtain ⟨hd2, hs2, hp2⟩ := armC_fields _ _ _ _ h
    exact ⟨Or.inl hd2, Or.inl hs2⟩
  · obtain ⟨hd2, hs2, hp2⟩ := opDraw_fields _ _ _ h
    exact ⟨Or.inl hd2, Or.inl hs2⟩
  · obtain ⟨hd2, hs2, hp2⟩ := armE_fields _ _ _ h
    exact ⟨Or.inl hd2, Or.inl hs2⟩
  · obtain ⟨hd2, hs2, hp2⟩ := armF_fields _ _ _ h
    constructor
    · rcases hd2 with he | ⟨hid, hv⟩
      · exact Or.inl he
      · exact Or.inr ⟨hkeq, hid, hv⟩
    · rcases hs2 with he | ⟨hid, hv⟩
      · exact Or.inl he
      · exact Or.inr ⟨hkeq, hid, hv⟩

/-- C8 witness: the amended theorem applied to the successful clear screen
from the initial state; both timers are unchanged. -/
theorem C8_step_timers_witness :
    ({ initState with video := fun _ => false } : Chip8).delay_timer = initState.delay_timer ∧
    ({ initState with video := fun _ => false } : Chip8).sound_timer = initState.sound_timer := by
  obtain ⟨h1, h2⟩ := C8_step_timers initState 0x00E0 0 { initState with video := fun _ => false } rfl
  constructor
  · rcases h1 with h | h
    · exact h
    · exact absurd h.1 (by decide)
  · rcases h2 with h | h
    · exact h
    · exact absurd h.1 (by decide)

/-- C9.  A step that fetches Fx0A while no key is pressed leaves the whole
machine unchanged — the fetch advances the program counter by 2 and the
instruction rewinds it by 2 — so repeated steps re-execute the same
instruction; once some key is pressed, the step stores the lowest-numbered
pressed key into Vx and leaves the program counter advanced past the
instruction. -/
theorem C9_wait_key (s : Chip8) (x rb : Nat)
    (hx : x < 16)
    (hpc : s.program_counter + 1 < MEMORY_SIZE)
    (hhi : s.memory s.program_counter = 0xF0 + x)
    (hlo : s.memory (s.program_counter + 1) = 0x0A) :
    ((∀ i, i < 16 → s.keypad i = false) → cycle s rb = Except.ok s) ∧
    (∀ j, j < 16 → s.keypad j = true →
      ∃ m, cycle s rb = Except.ok { s with program_counter := s.program_counter + 2, registers := upd s.registers x m } ∧
        s.keypad m = true ∧ ∀ i, i < m → s.keypad i = false) := by
  have hf : (((0xF0 + x) <<< 8 ||| 0x0A) &&& 0xF000) >>> 12 = 0xF := by
    interval_cases x <;> decide
  have hid : ((0xF0 + x) <<< 8 ||| 0x0A) &&& 0x00FF = 0x0A := by
    interval_cases x <;> decide
  have hxe : (((0xF0 + x) <<< 8 ||| 0x0A) &&& 0x0F00) >>> 8 = x := by
    interval_cases x <;> decide
  constructor
  · intro hnone
    have hck : check_keypad ({ s with program_counter := s.program_counter + 2 } : Chip8).keypad = none := by
      unfold check_keypad NUM_KEYS
      exact check_keypad_from_none s.keypad 16 0 (fun i h1 h2 => hnone i (by omega))
    unfold cycle
    rw [if_pos hpc, hhi, hlo, execute_fx0a _ _ _ hf hid, hxe,
      opWaitKey_none _ x hck le_add_self]
    simp
  · intro j hj hkj
    obtain ⟨m, hm⟩ : ∃ m, check_keypad s.keypad = some m := by
      unfold check_keypad NUM_KEYS
      exact check_keypad_from_isSome s.keypad 16 0 j (by omega) (by omega) hkj
    have hm2 : check_keypad ({ s with program_counter := s.program_counter + 2 } : Chip8).keypad = some m := hm
    have hspec := check_keypad_from_some s.keypad 16 0 m hm
    obtain ⟨hkm, _, _, hbelow⟩ := hspec
    refine ⟨m, ?_, hkm, fun i hi => hbelow i (by omega) hi⟩
    unfold cycle
    rw [if_pos hpc, hhi, hlo, execute_fx0a _ _ _ hf hid, hxe, opWaitKey_some _ x m hm2]

/-- C9 witness: the theorem applied to the recorded state whose program
holds F30A at the entry point — with no key pressed the step returns the
state unchanged, and with key 7 pressed the step stores a lowest pressed
key into V3 and advances the program counter. -/
theorem C9_wait_key_witness :
    cycle stateWait 0 = Except.ok stateWait ∧
    (∃ m, cycle stateWaitKey 0 = Except.ok { stateWaitKey with program_counter := stateWaitKey.program_counter + 2, registers := upd stateWaitKey.registers 3 m } ∧
      stateWaitKey.keypad m = true ∧ ∀ i, i < m → stateWaitKey.keypad i = false) := by
  constructor
  · exact (C9_wait_key stateWait 3 0 (by decide) (by decide) (by decide) (by decide)).1
      (fun i _ => rfl)
  · exact (C9_wait_key stateWaitKey 3 0 (by decide) (by decide) (by decide) (by decide)).2
      7 (by decide) (by decide)

end Chip8
